import Mathlib

/-!
Verification development for the Thought Graph & Heuristic Cognitive
Analysis Engine of `enhanced_sequential_thinking_server.py`.

The Python source is shallowly embedded: Python `float` arithmetic is
modelled over `ℚ`, Python dictionaries are modelled as insertion-ordered
association lists, and the external optional capabilities (the `textstat`
readability library, the `re` regular-expression engine and the
scikit-learn cosine-similarity matrix) are modelled as oracle parameters,
since the engine only consumes their results.  Thought identifiers are
modelled by the monotonic counter value `global_thought_counter`; the real
ids are the strings `f"thought_{counter}_{HHMMSS}"`, which are injectively
determined by the counter (the counter appears between fixed delimiters and
the timestamp suffix always has six digits), so `Nat` ids preserve exactly
the identity semantics.  Wall-clock timestamps are omitted from the model:
no embedded operation branches on them.
-/

namespace MCPThinking

/-! ## Arithmetic primitives (kernel-computable models of Python
`min`/`max`/`abs` on floats) -/

/-- Python `min(a, b)`. -/
def pymin (a b : ℚ) : ℚ := if a ≤ b then a else b

/-- Python `max(a, b)`. -/
def pymax (a b : ℚ) : ℚ := if a ≤ b then b else a

/-- Python `abs(x)`. -/
def pyabs (a : ℚ) : ℚ := if a < 0 then -a else a

/-! ## Text primitives (models of the Python `str` operations used) -/

/-- Model of Python `str.lower()` (character-wise lowercasing). -/
def lower (s : String) : String := ⟨s.data.map Char.toLower⟩

/-- Model of Python `str.strip()`: drop leading and trailing whitespace. -/
def strip (s : String) : String :=
  ⟨((s.data.dropWhile Char.isWhitespace).reverse.dropWhile Char.isWhitespace).reverse⟩

/-- Substring test on character lists: `needle` occurs inside `hay`
(model of Python `needle in hay`). -/
def containsSub (hay needle : List Char) : Bool :=
  match hay with
  | [] => needle.isEmpty
  | _ :: t => needle.isPrefixOf hay || containsSub t needle

/-- Model of the Python membership test `sub in s` on strings. -/
def strContains (s sub : String) : Bool := containsSub s.data sub.data

/-- Split a character list at every character satisfying `p`, keeping empty
pieces (model of splitting used by Python `str.split(chars)`/`re.split`). -/
def splitD (p : Char → Bool) : List Char → List Char → List (List Char)
  | [], acc => [acc.reverse]
  | c :: cs, acc => if p c then acc.reverse :: splitD p cs [] else splitD p cs (c :: acc)

/-- Model of Python `str.split()` with no argument: whitespace-separated
words, empty pieces dropped. -/
def pyWords (s : String) : List (List Char) :=
  (splitD Char.isWhitespace s.data []).filter (fun w => !w.isEmpty)

/-- Model of `len(thought.split())` in the Python source. -/
def wordCount (s : String) : Nat := (pyWords s).length

/-- Split at every maximal run of characters satisfying `p` (model of
Python `re.split` with a `[...]+` character-class pattern, which keeps the
empty pieces at the ends but produces no empty piece between two
delimiters of one run). -/
def splitRuns (p : Char → Bool) : List Char → List Char → List (List Char)
  | [], acc => [acc.reverse]
  | c :: cs, acc =>
      if p c then acc.reverse :: splitRuns p (cs.dropWhile p) []
      else splitRuns p cs (c :: acc)
termination_by l _ => l.length
decreasing_by
  · exact Nat.lt_succ_of_le (List.dropWhile_sublist p).length_le
  · exact Nat.lt_succ_self _

/-- The pieces of `re.split(r"[.!?]+", text)` in the Python source. -/
def sentencePieces (s : String) : List (List Char) :=
  splitRuns (fun c => c = '.' || c = '!' || c = '?') s.data []

/-- Model of `len([s for s in re.split(r"[.!?]+", thought) if s.strip()])` in the
Python source: count the pieces that are non-empty after stripping. -/
def sentenceCount (s : String) : Nat :=
  ((sentencePieces s).filter
    (fun piece => !(piece.dropWhile Char.isWhitespace).isEmpty)).length

/-- Model of `sum(1 for m in markers if m in textLower)`: number of markers of the
list that occur in the (already lowercased) text. -/
def countMarkers (markers : List String) (textLower : String) : Nat :=
  markers.countP (fun m => containsSub textLower.data m.data)

/-! ## Data model (enums and records of the Python source) -/

/-- Model of `ThinkingStrategy` enum of the source. -/
inductive ThinkingStrategy
  | linear | tree | dialectical | systematic | creative | analytical
  | metacognitive | critical | systemic | lateral | strategic | empathetic
  | abstract | practical | integrative | evolutionary | convergent
  | divergent | reflective
deriving DecidableEq, Repr

/-- Model of `ThoughtType` enum of the source. -/
inductive ThoughtType
  | observation | hypothesis | analysis | synthesis | evaluation
  | conclusion | question | assumption | counterargument | metacognition
deriving DecidableEq, Repr

/-- Model of `ConfidenceLevel` enum of the source (five ordinal values). -/
inductive ConfidenceLevel
  | veryLow | low | medium | high | veryHigh
deriving DecidableEq, Repr

/-- Model of `ThoughtMetrics` dataclass of the source; Python floats become `ℚ`. -/
structure ThoughtMetrics where
  clarity_score : ℚ := 0
  logical_coherence : ℚ := 0
  evidence_strength : ℚ := 0
  novelty_score : ℚ := 0
  complexity_score : ℚ := 0
  confidence_level : ConfidenceLevel := .medium
  critical_thinking_score : ℚ := 0
  systemic_thinking_score : ℚ := 0
  lateral_thinking_score : ℚ := 0
  strategic_score : ℚ := 0
  empathy_score : ℚ := 0
  abstraction_score : ℚ := 0
  practicality_score : ℚ := 0
  integration_score : ℚ := 0
  evolution_score : ℚ := 0
  convergence_score : ℚ := 0
  divergence_score : ℚ := 0
  reflection_score : ℚ := 0
deriving DecidableEq, Repr

/-! ## Marker catalog and analysis environment -/

/-- Per-strategy marker data from `localization_markers.py`.  `categories`
models the string-list-valued entries of the Python marker dict in
insertion order; the bonus entries (`structure_keywords`, tuple-valued, and
`pronouns`/`people_refs`) are carried in dedicated fields because Python
fetches them with `.get` for the bonus arguments.  An absent Python entry
(`.get` returning `None`) and an empty list behave identically at every use
site (all bonus conditions are guarded by truthiness plus `any`), so
absence is modelled by `[]`. -/
structure StrategyMarkersData where
  categories : List (String × List String) := []
  structure_keywords : List (String × String) := []
  causal_keywords : List String := []
  question_phrases : List String := []
  priority_keywords : List String := []
  pronouns : List String := []
  people_refs : List String := []
  specific_examples_negators : List String := []
  action_verbs : List String := []
  bonus_keywords : List String := []
  conclusion_connectors : List String := []

/-- Model of `bias_data` entry of `COGNITIVE_BIAS_MARKERS[lang]`. -/
structure BiasData where
  markers : List String
  context : List String

/-- The per-language marker catalog consumed by the engine (the contents of
`localization_markers.py` for one language); pure static data. -/
structure LanguageData where
  logical_connectors : List String := []
  evidence_patterns : List String := []
  uncertainty_markers : List String := []
  certainty_markers : List String := []
  bias_catalog : List (String × BiasData) := []
  contradiction_words : List (String × String) := []
  ambiguity_markers : List String := []
  positive_words : List String := []
  negative_words : List String := []
  domain_keywords : List (String × List String) := []
  critical_markers : StrategyMarkersData := {}
  systemic_markers : StrategyMarkersData := {}
  lateral_markers : StrategyMarkersData := {}
  strategic_markers : StrategyMarkersData := {}
  empathetic_markers : StrategyMarkersData := {}
  abstract_markers : StrategyMarkersData := {}
  practical_markers : StrategyMarkersData := {}
  integrative_markers : StrategyMarkersData := {}
  evolutionary_markers : StrategyMarkersData := {}
  convergent_markers : StrategyMarkersData := {}
  divergent_markers : StrategyMarkersData := {}
  reflective_markers : StrategyMarkersData := {}

/-- Outcome of the optional `textstat` readability capability in
`analyze_thought_quality`: available and returning a Flesch score,
available but raising (the `except` branch), or absent
(`HAS_ANALYSIS_LIBS = False`). -/
inductive ClarityEnv
  | libsOk (flesch : ℚ)
  | libsExc
  | noLibs

/-- Oracles for the external capabilities of the quality analyzer:
the readability outcome and the `re.search` regular-expression engine
(given a pattern and the lowercased text). -/
structure AnalysisEnv where
  clarity : ClarityEnv
  regexSearch : String → String → Bool

/-! ## Quality Metrics Analyzer (`ThoughtQualityAnalyzer`) -/

/-- The category-skip test of `_analyze_specific_strategy`: bonus-data
entries are excluded from the per-category scoring loop. -/
def skipCategory (c : String) : Bool :=
  "_keywords".data.isSuffixOf c.data || "_phrases".data.isSuffixOf c.data ||
  "_negators".data.isSuffixOf c.data || "_verbs".data.isSuffixOf c.data ||
  c = "pronouns" || c = "people_refs"

/-- The per-category sub-scores of `_analyze_specific_strategy`:
`min(1.0, count / (word_count * 0.1))` for every non-skipped category. -/
def categoryScores (tl : String) (wc : Nat)
    (categories : List (String × List String)) : List ℚ :=
  (categories.filter (fun p => !skipCategory p.1)).map
    (fun p => pymin 1 ((countMarkers p.2 tl : ℚ) / ((wc : ℚ) * (1/10))))

/-- The `bonus_score` assignment chain of `_analyze_specific_strategy`:
each condition that fires overwrites the previous value. -/
def strategyBonus (thought tl : String)
    (bonusStructure : List (String × String))
    (bonusCausal bonusQuestion bonusPriority : List String)
    (bonusPronouns bonusPeopleRefs : List String)
    (bonusNegators bonusActionVerbs bonusKeywords bonusConclusion : List String) : ℚ :=
  let b : ℚ := 0
  let b := if bonusStructure.any
      (fun m => strContains tl m.1 && strContains tl m.2) then (2/10 : ℚ) else b
  let b := if bonusCausal.any (fun k => strContains tl k) then (1/10 : ℚ) else b
  let b := if bonusQuestion.any (fun k => strContains tl k) then (15/100 : ℚ) else b
  let b := if bonusPriority.any (fun k => strContains tl k) then (1/10 : ℚ) else b
  let b := if (bonusPronouns.any (fun k => strContains tl k)) &&
      (bonusPeopleRefs.any (fun k => strContains tl k)) then (1/10 : ℚ) else b
  let b := if !bonusNegators.isEmpty && !(thought.data.any Char.isDigit) &&
      !(bonusNegators.any (fun w => strContains tl w)) then (1/10 : ℚ) else b
  let b := if bonusActionVerbs.any (fun v => strContains tl v) then (1/10 : ℚ) else b
  let b := if bonusKeywords.any (fun k => strContains tl k) then
      (if bonusKeywords.contains "win-win" || bonusKeywords.contains "synergy"
        then (15/100 : ℚ) else (1/10 : ℚ)) else b
  if bonusConclusion.any (fun c => strContains tl c) then (1/10 : ℚ) else b

/-- Model of `sum(scores) / len(scores) if scores else 0.0`. -/
def avgOrZero (l : List ℚ) : ℚ :=
  if l.isEmpty then 0 else l.sum / (l.length : ℚ)

/-- Model of `ThoughtQualityAnalyzer._analyze_specific_strategy`.  The bonus
parameters mirror the Python optional arguments; each per-strategy wrapper
passes only its own bonus data.  Categories whose name ends in
`_keywords`/`_phrases`/`_negators`/`_verbs` or equals
`pronouns`/`people_refs` are skipped in the scoring loop, exactly as in the
source; the bonus sub-score is appended only when positive. -/
def analyzeSpecificStrategy (thought : String)
    (categories : List (String × List String))
    (bonusStructure : List (String × String))
    (bonusCausal bonusQuestion bonusPriority : List String)
    (bonusPronouns bonusPeopleRefs : List String)
    (bonusNegators bonusActionVerbs bonusKeywords bonusConclusion : List String) : ℚ :=
  let tl := lower thought
  let wc := wordCount thought
  if wc = 0 then 0 else
  let b := strategyBonus thought tl bonusStructure bonusCausal bonusQuestion
    bonusPriority bonusPronouns bonusPeopleRefs bonusNegators bonusActionVerbs
    bonusKeywords bonusConclusion
  avgOrZero (if 0 < b then categoryScores tl wc categories ++ [b]
    else categoryScores tl wc categories)

/-- Model of `_analyze_critical_thinking`. -/
def analyzeCritical (L : LanguageData) (thought : String) : ℚ :=
  analyzeSpecificStrategy thought L.critical_markers.categories
    L.critical_markers.structure_keywords [] [] [] [] [] [] [] [] []

/-- Model of `_analyze_systemic_thinking`. -/
def analyzeSystemic (L : LanguageData) (thought : String) : ℚ :=
  analyzeSpecificStrategy thought L.systemic_markers.categories
    [] L.systemic_markers.causal_keywords [] [] [] [] [] [] [] []

/-- Model of `_analyze_lateral_thinking`. -/
def analyzeLateral (L : LanguageData) (thought : String) : ℚ :=
  analyzeSpecificStrategy thought L.lateral_markers.categories
    [] [] L.lateral_markers.question_phrases [] [] [] [] [] [] []

/-- Model of `_analyze_strategic_thinking`. -/
def analyzeStrategic (L : LanguageData) (thought : String) : ℚ :=
  analyzeSpecificStrategy thought L.strategic_markers.categories
    [] [] [] L.strategic_markers.priority_keywords [] [] [] [] [] []

/-- Model of `_analyze_empathetic_thinking`. -/
def analyzeEmpathetic (L : LanguageData) (thought : String) : ℚ :=
  analyzeSpecificStrategy thought L.empathetic_markers.categories
    [] [] [] [] L.empathetic_markers.pronouns L.empathetic_markers.people_refs
    [] [] [] []

/-- Model of `_analyze_abstract_thinking`. -/
def analyzeAbstract (L : LanguageData) (thought : String) : ℚ :=
  analyzeSpecificStrategy thought L.abstract_markers.categories
    [] [] [] [] [] [] L.abstract_markers.specific_examples_negators [] [] []

/-- Model of `_analyze_practical_thinking`. -/
def analyzePractical (L : LanguageData) (thought : String) : ℚ :=
  analyzeSpecificStrategy thought L.practical_markers.categories
    [] [] [] [] [] [] [] L.practical_markers.action_verbs [] []

/-- Model of `_analyze_integrative_thinking`. -/
def analyzeIntegrative (L : LanguageData) (thought : String) : ℚ :=
  analyzeSpecificStrategy thought L.integrative_markers.categories
    [] [] [] [] [] [] [] [] L.integrative_markers.bonus_keywords []

/-- Model of `_analyze_evolutionary_thinking`. -/
def analyzeEvolutionary (L : LanguageData) (thought : String) : ℚ :=
  analyzeSpecificStrategy thought L.evolutionary_markers.categories
    [] [] [] [] [] [] [] [] L.evolutionary_markers.bonus_keywords []

/-- Model of `_analyze_convergent_thinking`. -/
def analyzeConvergent (L : LanguageData) (thought : String) : ℚ :=
  analyzeSpecificStrategy thought L.convergent_markers.categories
    [] [] [] [] [] [] [] [] [] L.convergent_markers.conclusion_connectors

/-- Model of `_analyze_divergent_thinking`. -/
def analyzeDivergent (L : LanguageData) (thought : String) : ℚ :=
  analyzeSpecificStrategy thought L.divergent_markers.categories
    [] [] L.divergent_markers.question_phrases [] [] [] [] [] [] []

/-- Model of `_analyze_reflective_thinking`. -/
def analyzeReflective (L : LanguageData) (thought : String) : ℚ :=
  analyzeSpecificStrategy thought L.reflective_markers.categories
    [] [] [] [] [] [] [] [] L.reflective_markers.bonus_keywords []

/-- Model of `ThoughtQualityAnalyzer.analyze_thought_quality`. -/
def analyze_thought_quality (env : AnalysisEnv) (L : LanguageData)
    (thought : String) (strategy : ThinkingStrategy) : ThoughtMetrics :=
  if strip thought = "" then {} else
  let wc := wordCount thought
  let clarityComplexity : ℚ × ℚ :=
    match env.clarity with
    | .libsOk flesch =>
        let sc := sentenceCount thought
        let avgSentenceLength : ℚ := (wc : ℚ) / ((max sc 1 : ℕ) : ℚ)
        (pymin 1 (pymax 0 (flesch / 100)), pymin 1 (avgSentenceLength / 20))
    | .libsExc =>
        (pymin 1 (pymax (1/10) (1 - ((wc : ℚ) - 10) / 100)), pymin 1 ((wc : ℚ) / 50))
    | .noLibs =>
        (pymin 1 (pymax (1/10) (1 - pyabs ((wc : ℚ) - 15) / 30)), pymin 1 ((wc : ℚ) / 50))
  let tl := lower thought
  let connectorCount := countMarkers L.logical_connectors tl
  let evidenceCount := L.evidence_patterns.countP (fun p => env.regexSearch p tl)
  let uniqueWords := (pyWords tl).dedup.length
  let novelty : ℚ := if 0 < wc then pymin 1 ((uniqueWords : ℚ) / (wc : ℚ)) else 0
  let uncertaintyCount := countMarkers L.uncertainty_markers tl
  let certaintyCount := countMarkers L.certainty_markers tl
  { clarity_score := clarityComplexity.1
    complexity_score := clarityComplexity.2
    critical_thinking_score := if strategy = .critical then analyzeCritical L thought else 0
    systemic_thinking_score := if strategy = .systemic then analyzeSystemic L thought else 0
    lateral_thinking_score := if strategy = .lateral then analyzeLateral L thought else 0
    strategic_score := if strategy = .strategic then analyzeStrategic L thought else 0
    empathy_score := if strategy = .empathetic then analyzeEmpathetic L thought else 0
    abstraction_score := if strategy = .abstract then analyzeAbstract L thought else 0
    practicality_score := if strategy = .practical then analyzePractical L thought else 0
    integration_score := if strategy = .integrative then analyzeIntegrative L thought else 0
    evolution_score := if strategy = .evolutionary then analyzeEvolutionary L thought else 0
    convergence_score := if strategy = .convergent then analyzeConvergent L thought else 0
    divergence_score := if strategy = .divergent then analyzeDivergent L thought else 0
    reflection_score := if strategy = .reflective then analyzeReflective L thought else 0
    logical_coherence := pymin 1 ((connectorCount : ℚ) / 3)
    evidence_strength := pymin 1 ((evidenceCount : ℚ) / 3)
    novelty_score := novelty
    confidence_level :=
      if certaintyCount > uncertaintyCount then .high
      else if uncertaintyCount > certaintyCount then .low
      else .medium }

/-! ## Cognitive Validator (`CognitiveValidation`) -/

/-- Model of `CognitiveValidation.detect_cognitive_biases`: a bias of the catalog is
reported when at least two of its literal markers occur in the lowercased
text and at least one of its context cues occurs; results in catalog
order. -/
def detect_cognitive_biases (L : LanguageData) (thought : String) : List String :=
  let tl := lower thought
  (L.bias_catalog.filter (fun bias =>
    decide (2 ≤ (bias.2.markers.countP (fun m => containsSub tl.data m.data))) &&
    bias.2.context.any (fun c => strContains tl c))).map (fun bias => bias.1)

/-- One conflict record appended by `check_logical_consistency` (the fixed
localized type label is omitted; it carries no logic). -/
structure Conflict where
  first : Nat
  second : Nat
  confidence : ℚ
deriving DecidableEq, Repr

/-- Result of `check_logical_consistency` (the similarity matrix, pure
oracle output passed through, is not replicated in the record). -/
structure ConsistencyResult where
  consistent : Bool
  conflicts : List Conflict
deriving DecidableEq, Repr

/-- Environment of `check_logical_consistency`: the analysis libraries may
be absent, the TF-IDF vectorization may raise (the `except` branch), or it
yields a cosine-similarity matrix, modelled as an oracle on index pairs. -/
inductive ConsistencyEnv
  | noLibs
  | exc
  | ok (sim : Nat → Nat → ℚ)

/-- The conflict-collection loop of `check_logical_consistency`: for every
`i < j` and every catalog pair `(neg, pos)` with `neg` in the lowercased
text `i`, `pos` in the lowercased text `j` and similarity below `0.3`,
record a conflict with confidence `1 - similarity`. -/
def collectConflicts (sim : Nat → Nat → ℚ)
    (contradictionPairs : List (String × String)) (thoughts : List String) :
    List Conflict :=
  (thoughts.enum).flatMap (fun it =>
    ((thoughts.enum).drop (it.1 + 1)).flatMap (fun jt =>
      (contradictionPairs.filter (fun p =>
        strContains (lower it.2) p.1 && strContains (lower jt.2) p.2 &&
        decide (sim it.1 jt.1 < 3/10))).map
        (fun _ => ⟨it.1, jt.1, 1 - sim it.1 jt.1⟩)))

/-- Model of `CognitiveValidation.check_logical_consistency`. -/
def check_logical_consistency (env : ConsistencyEnv) (L : LanguageData)
    (thoughts : List String) : ConsistencyResult :=
  if thoughts.length < 2 then ⟨true, []⟩ else
  match env with
  | .noLibs => ⟨true, []⟩
  | .exc => ⟨true, []⟩
  | .ok sim =>
      let conflicts := collectConflicts sim L.contradiction_words thoughts
      ⟨conflicts.isEmpty, conflicts⟩

/-! ## Thought Graph Store (`EnhancedThinkingProcessor` state) -/

/-- Model of `EnhancedThought` dataclass.  Ids are the monotonic counter values (see
the header comment); the immutable creation timestamp is omitted. -/
structure EnhancedThought where
  id : Nat
  content : String
  thought_type : ThoughtType
  strategy : ThinkingStrategy
  parent_id : Option Nat := none
  children_ids : List Nat := []
  branch_id : Option String := none
  revision_of : Option Nat := none
  metrics : ThoughtMetrics := {}
  cognitive_biases : List String := []
  tags : List String := []
  supports : List Nat := []
  contradicts : List Nat := []
  builds_on : List Nat := []
deriving DecidableEq, Repr

/-- Model of `EnhancedThinkingInput` request model (pydantic defaults preserved). -/
structure EnhancedThinkingInput where
  thought : String
  thought_type : ThoughtType := .analysis
  strategy : ThinkingStrategy := .linear
  parent_thought_id : Option Nat := none
  revision_of_id : Option Nat := none
  branch_id : Option String := none
  supports_thoughts : List Nat := []
  contradicts_thoughts : List Nat := []
  builds_on_thoughts : List Nat := []
  tags : List String := []
  confidence : Option ConfidenceLevel := none
  request_analysis : Bool := true
  request_validation : Bool := true

/-- The mutable state of `EnhancedThinkingProcessor`: the id-keyed thought
store, the session map (a `defaultdict(list)`, modelled as an
insertion-ordered association list), the current session id, the rolling
strategy history and the id counter. -/
structure ProcessorState where
  thoughts : List (Nat × EnhancedThought) := []
  thought_sessions : List (String × List Nat) := []
  current_session_id : String := "default"
  strategy_history : List (ThinkingStrategy × ℚ) := []
  global_thought_counter : Nat := 0
deriving DecidableEq

/-- In-place update of the store entry with key `k` (Python mutates the
shared `EnhancedThought` object held in the dict). -/
def updateThoughtEntry (k : Nat) (f : EnhancedThought → EnhancedThought)
    (thoughts : List (Nat × EnhancedThought)) : List (Nat × EnhancedThought) :=
  thoughts.map (fun p => if p.1 = k then (p.1, f p.2) else p)

/-- Model of `defaultdict(list)` append: `self.thought_sessions[sid].append(tid)`
creates the entry on first reference. -/
def sessionAppend (sid : String) (tid : Nat)
    (sessions : List (String × List Nat)) : List (String × List Nat) :=
  if (sessions.lookup sid).isSome then
    sessions.map (fun p => if p.1 = sid then (p.1, p.2 ++ [tid]) else p)
  else sessions ++ [(sid, [tid])]

/-- Model of `EnhancedThinkingProcessor._update_thought_relationships`: if the new
thought's parent id is present in the store, append the new id to the
parent's children list unless already present; otherwise leave the store
untouched. -/
def update_thought_relationships (thought : EnhancedThought)
    (thoughts : List (Nat × EnhancedThought)) : List (Nat × EnhancedThought) :=
  match thought.parent_id with
  | some p =>
      if (thoughts.lookup p).isSome then
        updateThoughtEntry p (fun parent =>
          if thought.id ∈ parent.children_ids then parent
          else { parent with children_ids := parent.children_ids ++ [thought.id] })
          thoughts
      else thoughts
  | none => thoughts

/-- Model of `EnhancedThinkingProcessor.create_thought`: assign a fresh id
(counter increment), run the optional quality analysis (with the explicit
confidence override) and bias detection, resolve the parent link, store the
thought, and append its id to the current session. -/
def create_thought (env : AnalysisEnv) (L : LanguageData)
    (st : ProcessorState) (input : EnhancedThinkingInput) :
    ProcessorState × EnhancedThought :=
  let counter := st.global_thought_counter + 1
  let thought_id := counter
  let metrics : ThoughtMetrics :=
    if input.request_analysis then
      let m := analyze_thought_quality env L input.thought input.strategy
      match input.confidence with
      | some c => { m with confidence_level := c }
      | none => m
    else {}
  let thought : EnhancedThought :=
    { id := thought_id
      content := input.thought
      thought_type := input.thought_type
      strategy := input.strategy
      parent_id := input.parent_thought_id
      branch_id := input.branch_id
      revision_of := input.revision_of_id
      supports := input.supports_thoughts
      contradicts := input.contradicts_thoughts
      builds_on := input.builds_on_thoughts
      tags := input.tags
      metrics := metrics
      cognitive_biases :=
        if input.request_validation then detect_cognitive_biases L input.thought
        else [] }
  let thoughts1 := update_thought_relationships thought st.thoughts
  ({ st with
      global_thought_counter := counter
      thoughts := thoughts1 ++ [(thought_id, thought)]
      thought_sessions :=
        sessionAppend st.current_session_id thought_id st.thought_sessions },
    thought)

/-- The `while current_thought:` loop of `get_thinking_path`, made explicit
with fuel: each iteration prepends the current thought to the path and
follows the parent link through the store.  `none` means the fuel ran out
before the loop exited — the Python loop itself carries no bound. -/
def pathLoop (thoughts : List (Nat × EnhancedThought)) :
    Nat → EnhancedThought → List EnhancedThought → Option (List EnhancedThought)
  | 0, _, _ => none
  | fuel + 1, cur, path =>
      let path1 := cur :: path
      match cur.parent_id with
      | some p =>
          match thoughts.lookup p with
          | some parent => pathLoop thoughts fuel parent path1
          | none => some path1
      | none => some path1

/-- Model of `EnhancedThinkingProcessor.get_thinking_path`: empty list on an unknown
id, otherwise the root-to-thought path obtained by walking parent links. -/
def get_thinking_path (st : ProcessorState) (thought_id : Nat) (fuel : Nat) :
    Option (List EnhancedThought) :=
  match st.thoughts.lookup thought_id with
  | none => some []
  | some th => pathLoop st.thoughts fuel th []

/-! ## Session & Metacognitive Analyzer -/

/-- The session-coherence report dictionary of
`analyze_session_coherence` (success branch). -/
structure CoherenceReport where
  coherence_score : ℚ
  consistency_analysis : ConsistencyResult
  quality_trend : ℚ
  average_quality : ℚ
  thought_count : Nat
  cognitive_biases_detected : Nat
deriving DecidableEq, Repr

/-- The three possible shapes of the `analyze_session_coherence` result:
the unknown-session error dict, the empty-session note, or the report. -/
inductive CoherenceResult
  | sessionNotFound
  | noThoughts
  | report (r : CoherenceReport)
deriving DecidableEq, Repr

/-- Model of `EnhancedThinkingProcessor.analyze_session_coherence`. -/
def analyze_session_coherence (cenv : ConsistencyEnv) (L : LanguageData)
    (st : ProcessorState) (sessionArg : Option String) : CoherenceResult :=
  let session_id := sessionArg.getD st.current_session_id
  match st.thought_sessions.lookup session_id with
  | none => .sessionNotFound
  | some tids =>
      let resolved := tids.filterMap (fun tid => st.thoughts.lookup tid)
      let contents := resolved.map (fun th => th.content)
      if contents.isEmpty then .noThoughts else
      let consistency := check_logical_consistency cenv L contents
      let qualityScores := resolved.map (fun th =>
        (th.metrics.clarity_score + th.metrics.logical_coherence +
          th.metrics.evidence_strength) / 3)
      .report
        { coherence_score :=
            1 - (consistency.conflicts.length : ℚ) / ((max contents.length 1 : ℕ) : ℚ)
          consistency_analysis := consistency
          quality_trend :=
            if 1 < qualityScores.length then
              qualityScores.getLast?.getD 0 - qualityScores.head?.getD 0
            else 0
          average_quality :=
            if qualityScores.isEmpty then 0
            else qualityScores.sum / (qualityScores.length : ℚ)
          thought_count := contents.length
          cognitive_biases_detected :=
            (resolved.map (fun th => th.cognitive_biases.length)).sum }

/-- Increment the counter of key `k` in an insertion-ordered counting map
(model of `defaultdict(int)` incrementing). -/
def bumpCount {α : Type} [DecidableEq α] (k : α) (l : List (α × Nat)) :
    List (α × Nat) :=
  if l.any (fun p => p.1 = k) then
    l.map (fun p => if p.1 = k then (p.1, p.2 + 1) else p)
  else l ++ [(k, 1)]

/-- Counting map over a key sequence in iteration order. -/
def distribution {α : Type} [DecidableEq α] (keys : List α) : List (α × Nat) :=
  keys.foldl (fun acc k => bumpCount k acc) []

/-- Model of `max(dist.items(), key=lambda x: x[1])[0]`: the key with the largest
count, earliest key winning ties (Python `max` keeps the first maximal
element of the iteration). -/
def dominantKey {α : Type} (l : List (α × Nat)) : Option α :=
  match l with
  | [] => none
  | h :: t => some (t.foldl (fun best p => if best.2 < p.2 then p else best) h).1

/-- Model of `_analyze_thinking_patterns` result. -/
structure PatternsResult where
  thought_type_distribution : List (ThoughtType × Nat)
  strategy_distribution : List (ThinkingStrategy × Nat)
  dominant_type : Option ThoughtType
  dominant_strategy : Option ThinkingStrategy
deriving DecidableEq, Repr

/-- Model of `EnhancedThinkingProcessor._analyze_thinking_patterns`. -/
def analyze_thinking_patterns (thoughts : List EnhancedThought) : PatternsResult :=
  let typeDist := distribution (thoughts.map (fun th => th.thought_type))
  let strategyDist := distribution (thoughts.map (fun th => th.strategy))
  { thought_type_distribution := typeDist
    strategy_distribution := strategyDist
    dominant_type := dominantKey typeDist
    dominant_strategy := dominantKey strategyDist }

/-- Model of `EnhancedThinkingProcessor._evaluate_strategy_effectiveness`: mean of
the 4-factor per-thought quality average. -/
def evaluate_strategy_effectiveness (thoughts : List EnhancedThought) : ℚ :=
  if thoughts.isEmpty then 0 else
  (thoughts.map (fun th =>
    (th.metrics.clarity_score + th.metrics.logical_coherence +
      th.metrics.evidence_strength + th.metrics.novelty_score) / 4)).sum /
    (thoughts.length : ℚ)

/-- Model of `EnhancedThinkingProcessor._assess_cognitive_load`. -/
def assess_cognitive_load (thoughts : List EnhancedThought) : ℚ :=
  if thoughts.isEmpty then 0 else
  let avgComplexity :=
    (thoughts.map (fun th => th.metrics.complexity_score)).sum / (thoughts.length : ℚ)
  let connectionComplexity :=
    (thoughts.map (fun th =>
      ((th.supports.length + th.contradicts.length + th.builds_on.length : ℕ) : ℚ) /
        10)).sum
  pymin 1 ((avgComplexity + connectionComplexity / (thoughts.length : ℚ)) / 2)

/-- Model of `_assess_cognitive_biases` result.  `detected_biases` is
`list(set(all_biases))` in Python; the set's iteration order is modelled as
first-occurrence order. -/
structure BiasAssessment where
  total_biases : Nat
  unique_biases : Nat
  detected_biases : List String
  bias_distribution : List (String × Nat)
  bias_density : ℚ
deriving DecidableEq, Repr

/-- Model of `EnhancedThinkingProcessor._assess_cognitive_biases`. -/
def assess_cognitive_biases (thoughts : List EnhancedThought) : BiasAssessment :=
  let allBiases := thoughts.flatMap (fun th => th.cognitive_biases)
  { total_biases := allBiases.length
    unique_biases := allBiases.dedup.length
    detected_biases := allBiases.dedup
    bias_distribution := distribution allBiases
    bias_density :=
      if thoughts.isEmpty then 0 else (allBiases.length : ℚ) / (thoughts.length : ℚ) }

/-- The thoughts of the current session
(`[self.thoughts[tid] for tid in self.thought_sessions[current] if tid in self.thoughts]`;
a missing session entry yields the `defaultdict` empty list). -/
def sessionThoughts (st : ProcessorState) : List EnhancedThought :=
  ((st.thought_sessions.lookup st.current_session_id).getD []).filterMap
    (fun tid => st.thoughts.lookup tid)

/-- The analysis dictionary built by `perform_metacognitive_analysis`
(recommendation strings stand for the localized texts). -/
structure MetaAnalysis where
  focus_area : String
  thinking_patterns : PatternsResult
  strategy_effectiveness : ℚ
  cognitive_load : ℚ
  bias_assessment : BiasAssessment
  recommendations : List String
deriving DecidableEq, Repr

/-- Model of `perform_metacognitive_analysis` result: the empty-session note or the
full analysis. -/
inductive MetaResult
  | noThoughts
  | analysis (a : MetaAnalysis)
deriving DecidableEq, Repr

/-- Model of `EnhancedThinkingProcessor.perform_metacognitive_analysis`.  The
`depth` argument is carried exactly as in the source signature. -/
def perform_metacognitive_analysis (st : ProcessorState)
    (focus_area : String) (depth : Nat) : MetaResult :=
  let thoughts := sessionThoughts st
  if thoughts.isEmpty then .noThoughts else
  let load := assess_cognitive_load thoughts
  let eff := evaluate_strategy_effectiveness thoughts
  let biasA := assess_cognitive_biases thoughts
  .analysis
    { focus_area := focus_area
      thinking_patterns := analyze_thinking_patterns thoughts
      strategy_effectiveness := eff
      cognitive_load := load
      bias_assessment := biasA
      recommendations :=
        (if (7/10 : ℚ) < load then ["RECOMMENDATION_BREAK_DOWN_TASK"] else []) ++
        (if 3 < biasA.detected_biases.length then
          ["RECOMMENDATION_BIASES_ATTENTION"] else []) ++
        (if eff < (5/10 : ℚ) then ["RECOMMENDATION_STRATEGY_INEFFECTIVE"] else []) }

/-! ## Strategy Recommendation Engine -/

/-- Model of `EnhancedThinkingProcessor._analyze_complexity`. -/
def analyze_complexity (text : String) : ℚ :=
  if strip text = "" then 0 else
  let wc := wordCount text
  let longWordCount := (pyWords text).countP (fun w => 7 < w.length)
  let sc := (sentencePieces text).length
  if sc = 0 then 0 else
  let complexity : ℚ :=
    if 0 < wc then ((longWordCount : ℚ) / (wc : ℚ)) * ((wc : ℚ) / (sc : ℚ)) else 0
  pymin 1 (complexity / 5)

/-- Model of `EnhancedThinkingProcessor._analyze_ambiguity`. -/
def analyze_ambiguity (L : LanguageData) (text : String) : ℚ :=
  let count := countMarkers L.ambiguity_markers (lower text)
  let wc := wordCount text
  pymin 1 (if 0 < wc then (count : ℚ) / ((wc : ℚ) * (1/10)) else 0)

/-- Model of `EnhancedThinkingProcessor._analyze_emotional_tone`. -/
def analyze_emotional_tone (L : LanguageData) (text : String) : ℚ :=
  let tl := lower text
  let positiveScore := countMarkers L.positive_words tl
  let negativeScore := countMarkers L.negative_words tl
  if positiveScore + negativeScore = 0 then 0
  else pyabs ((positiveScore : ℚ) - (negativeScore : ℚ)) /
    ((positiveScore + negativeScore : ℕ) : ℚ)

/-- Model of `EnhancedThinkingProcessor._detect_domain` (the localized label is
modelled by the domain key itself). -/
def detect_domain (L : LanguageData) (text : String) : String :=
  let tl := lower text
  match L.domain_keywords.find? (fun p => p.2.any (fun k => strContains tl k)) with
  | some p => "TEXT_DOMAIN_" ++ p.1
  | none => "TEXT_DOMAIN_GENERAL"

/-- The `context_analysis` dictionary of `suggest_next_thinking_strategy`. -/
structure ContextAnalysis where
  complexity : ℚ
  ambiguity : ℚ
  emotional_tone : ℚ
  domain : String
deriving DecidableEq, Repr

/-- The last `n` entries of a list (`lst[-n:]` in Python). -/
def lastN {α : Type} (n : Nat) (l : List α) : List α := l.drop (l.length - n)

/-- Model of `EnhancedThinkingProcessor._analyze_strategy_history`:
`self.strategy_history[-5:]`. -/
def analyze_strategy_history (history : List (ThinkingStrategy × ℚ)) :
    List (ThinkingStrategy × ℚ) :=
  lastN 5 history

/-- Recommendation branch 4 of `suggest_next_thinking_strategy`: from the
last five history entries, the strategies with recorded effectiveness
above `0.7`, at most the first two
(`successful_strategies = [s for s, e in analyzed if e > 0.7]`, extended as
`successful_strategies[:2]`). -/
def branch4Proposals (history : List (ThinkingStrategy × ℚ)) :
    List ThinkingStrategy :=
  (((analyze_strategy_history history).filter
    (fun p => (7/10 : ℚ) < p.2)).map Prod.fst).take 2

/-- The result dictionary of `suggest_next_thinking_strategy` (the fixed
localized reason strings are modelled by their translation keys). -/
structure SuggestResult where
  context_analysis : ContextAnalysis
  current_effectiveness : ℚ
  suggested_strategies : List (ThinkingStrategy × String)
deriving DecidableEq, Repr

/-- The recommendation assembly of `suggest_next_thinking_strategy`:
branches 1–3 keyed on the context analysis, branch 4 from the strategy
history, and the fallback branch 5 keyed on the current effectiveness when
branches 1–4 produced nothing.  Each branch appends rather than replaces;
the reason strings stand for the localized reason texts. -/
def recommendationBranches14 (contextAnalysis : ContextAnalysis)
    (history : List (ThinkingStrategy × ℚ)) : List (ThinkingStrategy × String) :=
  (if (7/10 : ℚ) < contextAnalysis.complexity then
    [(.systemic, "HIGH_COMPLEXITY_REASON"),
      (.analytical, "DETAILED_ANALYSIS_NEEDED_REASON")] else []) ++
  (if (6/10 : ℚ) < contextAnalysis.ambiguity then
    [(.critical, "AMBIGUITY_CRITICAL_ANALYSIS_REASON"),
      (.dialectical, "OPPOSING_VIEWPOINTS_REASON")] else []) ++
  (if (5/10 : ℚ) < contextAnalysis.emotional_tone then
    [(.empathetic, "EMOTIONAL_CONTEXT_EMPATHETIC_REASON"),
      (.reflective, "REFLECTION_NEEDED_REASON")] else []) ++
  (branch4Proposals history).map
    (fun s => (s, "STRATEGY_EFFECTIVE_PREVIOUSLY_REASON"))

/-- The fallback branch 5, keyed on the current effectiveness. -/
def fallbackRecommendations (current_effectiveness : ℚ) :
    List (ThinkingStrategy × String) :=
  if current_effectiveness < (5/10 : ℚ) then
    [(.tree, "EXPLORE_ALTERNATIVES_REASON"),
      (.dialectical, "OPPOSING_VIEWPOINTS_REASON"),
      (.metacognitive, "ANALYZE_APPROACH_REASON")]
  else if current_effectiveness < (7/10 : ℚ) then
    [(.systematic, "USE_SYSTEMATIC_ANALYSIS_REASON"),
      (.analytical, "APPLY_STRICT_LOGIC_REASON")]
  else
    [(.creative, "TRY_CREATIVE_APPROACH_REASON"),
      (.divergent, "GENERATE_MORE_ALTERNATIVES_REASON")]

/-- Model of `if not recommendations: ... else recommendations` of the source. -/
def assembleRecommendations (contextAnalysis : ContextAnalysis)
    (history : List (ThinkingStrategy × ℚ)) (current_effectiveness : ℚ) :
    List (ThinkingStrategy × String) :=
  if (recommendationBranches14 contextAnalysis history).isEmpty then
    fallbackRecommendations current_effectiveness
  else recommendationBranches14 contextAnalysis history

/-- Model of `EnhancedThinkingProcessor.suggest_next_thinking_strategy`: records the
(strategy, effectiveness) pair into the rolling history (cap 20, oldest
dropped), then assembles recommendations branch by branch. -/
def suggest_next_thinking_strategy (L : LanguageData) (st : ProcessorState)
    (context : String) (current_effectiveness : ℚ)
    (current_strategy : ThinkingStrategy) : ProcessorState × SuggestResult :=
  let appended := st.strategy_history ++ [(current_strategy, current_effectiveness)]
  let history := if 20 < appended.length then appended.drop 1 else appended
  let contextAnalysis : ContextAnalysis :=
    { complexity := analyze_complexity context
      ambiguity := analyze_ambiguity L context
      emotional_tone := analyze_emotional_tone L context
      domain := detect_domain L context }
  ({ st with strategy_history := history },
    { context_analysis := contextAnalysis
      current_effectiveness := current_effectiveness
      suggested_strategies :=
        assembleRecommendations contextAnalysis history current_effectiveness })

/-! ## Server tools (`EnhancedThinkingServer`) -/

/-- Result of the `enhanced_thinking` tool: the structured error payload
(`{"input": {"error": ..., "status": "failed"}}`) or the success payload
built from the created thought. -/
inductive ThinkingToolResult
  | errorResult (msg : String)
  | ok (thought_id : Nat) (metrics : ThoughtMetrics) (biases : List String)
deriving DecidableEq, Repr

/-- Model of `EnhancedThinkingServer.enhanced_thinking`: rejects content that is
empty after trimming with a validation error (raised and caught inside the
tool, so it reaches the caller as a structured error), otherwise creates
the thought.  The formatter-language juggling around the call only touches
the output formatter and is restored in `finally`; it never touches the
processor state. -/
def enhanced_thinking (env : AnalysisEnv) (L : LanguageData)
    (st : ProcessorState) (input : EnhancedThinkingInput) :
    ProcessorState × ThinkingToolResult :=
  if input.thought = "" || strip input.thought = "" then
    (st, .errorResult "ERROR_EMPTY_THOUGHT_CONTENT")
  else
    let res := create_thought env L st input
    (res.1, .ok res.2.id res.2.metrics res.2.cognitive_biases)

/-- One entry of the structured (`json`) export of a thought. -/
structure ExportedThought where
  id : Nat
  content : String
  thought_type : ThoughtType
  strategy : ThinkingStrategy
  metrics : ThoughtMetrics
  biases : List String
  parent : Option Nat
  children : List Nat
  supports : List Nat
  contradicts : List Nat
  tags : List String
deriving DecidableEq, Repr

/-- Result of the `export_thinking_session` tool.  The markdown and
summary branches carry the data those renderings are built from; the
narrative string assembly itself is pure formatting. -/
inductive ExportResult
  | sessionNotFound
  | json (session_id : String) (thought_count : Nat) (thoughts : List ExportedThought)
  | markdown (total_thoughts : Nat) (thoughts : List EnhancedThought)
  | summary (session_id : String) (total_thoughts : Nat) (analysis : CoherenceResult)
  | unsupported (format_type : String)
deriving DecidableEq, Repr

/-- Model of `EnhancedThinkingServer.export_thinking_session`: resolve the session
id (defaulting to the current session), return the session-not-found error
dict when the id is absent from the session map, otherwise dispatch on the
format type. -/
def export_thinking_session (cenv : ConsistencyEnv) (L : LanguageData)
    (st : ProcessorState) (sessionArg : Option String)
    (format_type : String) : ExportResult :=
  let session_id := sessionArg.getD st.current_session_id
  match st.thought_sessions.lookup session_id with
  | none => .sessionNotFound
  | some tids =>
      let thoughts := tids.filterMap (fun tid => st.thoughts.lookup tid)
      if format_type = "json" then
        .json session_id thoughts.length (thoughts.map (fun th =>
          { id := th.id
            content := th.content
            thought_type := th.thought_type
            strategy := th.strategy
            metrics := th.metrics
            biases := th.cognitive_biases
            parent := th.parent_id
            children := th.children_ids
            supports := th.supports
            contradicts := th.contradicts
            tags := th.tags }))
      else if format_type = "markdown" then .markdown thoughts.length thoughts
      else if format_type = "summary" then
        .summary session_id thoughts.length
          (analyze_session_coherence cenv L st (some session_id))
      else .unsupported format_type

/-! ## Claim-level predicates and witness fixtures -/

/-- The closed unit interval, as a predicate on `ℚ`. -/
def unitI (x : ℚ) : Prop := 0 ≤ x ∧ x ≤ 1

/-- The property claimed of a metrics record: every float score lies in
`[0,1]`, and the confidence level is one of the five ordinal values. -/
def MetricsInUnitRange (m : ThoughtMetrics) : Prop :=
  unitI m.clarity_score ∧ unitI m.logical_coherence ∧ unitI m.evidence_strength ∧
  unitI m.novelty_score ∧ unitI m.complexity_score ∧
  unitI m.critical_thinking_score ∧ unitI m.systemic_thinking_score ∧
  unitI m.lateral_thinking_score ∧ unitI m.strategic_score ∧
  unitI m.empathy_score ∧ unitI m.abstraction_score ∧
  unitI m.practicality_score ∧ unitI m.integration_score ∧
  unitI m.evolution_score ∧ unitI m.convergence_score ∧
  unitI m.divergence_score ∧ unitI m.reflection_score ∧
  (m.confidence_level = .veryLow ∨ m.confidence_level = .low ∨
    m.confidence_level = .medium ∨ m.confidence_level = .high ∨
    m.confidence_level = .veryHigh)

/-- A store state in which a thought is its own parent (the parent id is
stored unchecked at creation, and the id format is predictable, so the
claim explicitly quantifies over cyclic states as well). -/
def cyclicThought : EnhancedThought :=
  { id := 1, content := "loop", thought_type := .analysis,
    strategy := .linear, parent_id := some 1 }

/-- The store holding only the self-parented thought. -/
def cyclicState : ProcessorState := { thoughts := [(1, cyclicThought)] }

/-- A one-thought store used as the C7 witness state. -/
def c7Root : EnhancedThought :=
  { id := 1, content := "root", thought_type := .analysis, strategy := .linear }

/-- The witness state: one stored root thought, counter 1. -/
def c7State : ProcessorState :=
  { thoughts := [(1, c7Root)], thought_sessions := [("default", [1])],
    global_thought_counter := 1 }

/-- The id-freshness invariant of the store: every stored key and every id
in a stored children list is at most the current counter value.  It holds
at the initial state and is preserved by creation, so every reachable state
satisfies it; the freshly generated id `counter + 1` therefore occurs
nowhere in the store. -/
def IdsBounded (st : ProcessorState) : Prop :=
  ∀ p ∈ st.thoughts, p.1 ≤ st.global_thought_counter ∧
    ∀ c ∈ p.2.children_ids, c ≤ st.global_thought_counter

/-! ## Range lemmas for the quality metrics (claim C1) -/


theorem unitI_zero : unitI 0 := by constructor <;> norm_num

theorem unitI_ite (c : Prop) [Decidable c] {v b : ℚ}
    (hv : unitI v) (hb : unitI b) : unitI (if c then v else b) := by
  split
  · exact hv
  · exact hb

theorem pymin_one_unit {x : ℚ} (hx : 0 ≤ x) : unitI (pymin 1 x) := by
  unfold pymin unitI
  split
  · constructor <;> norm_num
  · constructor
    · exact hx
    · linarith

theorem pymax_nonneg_left {a : ℚ} (ha : 0 ≤ a) (b : ℚ) : 0 ≤ pymax a b := by
  unfold pymax
  split
  · linarith
  · exact ha

theorem avg_unit (l : List ℚ) (h : ∀ x ∈ l, unitI x) :
    unitI (if l.isEmpty then 0 else l.sum / (l.length : ℚ)) := by
  split
  · exact unitI_zero
  · rename_i hne
    have hlen : 0 < l.length := by
      cases l with
      | nil => simp at hne
      | cons a t => simp
    have hlenQ : (0 : ℚ) < (l.length : ℚ) := by exact_mod_cast hlen
    constructor
    · exact div_nonneg (List.sum_nonneg (fun x hx => (h x hx).1)) (le_of_lt hlenQ)
    · rw [div_le_one hlenQ]
      have := List.sum_le_card_nsmul l 1 (fun x hx => (h x hx).2)
      simpa using this

theorem avgOrZero_unit (l : List ℚ) (h : ∀ x ∈ l, unitI x) : unitI (avgOrZero l) :=
  avg_unit l h

theorem strategyBonus_unit (thought tl : String)
    (bonusStructure : List (String × String))
    (bonusCausal bonusQuestion bonusPriority : List String)
    (bonusPronouns bonusPeopleRefs : List String)
    (bonusNegators bonusActionVerbs bonusKeywords bonusConclusion : List String) :
    unitI (strategyBonus thought tl bonusStructure bonusCausal bonusQuestion
      bonusPriority bonusPronouns bonusPeopleRefs bonusNegators
      bonusActionVerbs bonusKeywords bonusConclusion) := by
  unfold strategyBonus
  refine unitI_ite _ (by constructor <;> norm_num) ?_
  refine unitI_ite _ (unitI_ite _ (by constructor <;> norm_num)
    (by constructor <;> norm_num)) ?_
  refine unitI_ite _ (by constructor <;> norm_num) ?_
  refine unitI_ite _ (by constructor <;> norm_num) ?_
  refine unitI_ite _ (by constructor <;> norm_num) ?_
  refine unitI_ite _ (by constructor <;> norm_num) ?_
  refine unitI_ite _ (by constructor <;> norm_num) ?_
  refine unitI_ite _ (by constructor <;> norm_num) ?_
  exact unitI_ite _ (by constructor <;> norm_num) unitI_zero

theorem categoryScores_unit (tl : String) (wc : Nat)
    (categories : List (String × List String)) :
    ∀ x ∈ categoryScores tl wc categories, unitI x := by
  intro x hx
  rcases List.mem_map.mp hx with ⟨p, _, rfl⟩
  exact pymin_one_unit (div_nonneg (by positivity) (by positivity))

theorem analyzeSpecificStrategy_unit (thought : String)
    (categories : List (String × List String))
    (bonusStructure : List (String × String))
    (bonusCausal bonusQuestion bonusPriority : List String)
    (bonusPronouns bonusPeopleRefs : List String)
    (bonusNegators bonusActionVerbs bonusKeywords bonusConclusion : List String) :
    unitI (analyzeSpecificStrategy thought categories bonusStructure
      bonusCausal bonusQuestion bonusPriority bonusPronouns bonusPeopleRefs
      bonusNegators bonusActionVerbs bonusKeywords bonusConclusion) := by
  simp only [analyzeSpecificStrategy]
  split
  · exact unitI_zero
  · apply avgOrZero_unit
    intro x hx
    split at hx
    · rcases List.mem_append.mp hx with hx | hx
      · exact categoryScores_unit _ _ _ x hx
      · rcases List.mem_singleton.mp hx with rfl
        exact strategyBonus_unit _ _ _ _ _ _ _ _ _ _ _ _
    · exact categoryScores_unit _ _ _ x hx


/-- Claim C1: For every non-empty (after trimming) thought text, every
analysis environment (readability capability present, raising, or absent),
every language marker catalog and every declared strategy, all float fields
of the `ThoughtMetrics` returned by `analyze_thought_quality` — clarity,
logical coherence, evidence strength, novelty, complexity and each of the
twelve strategy competency scores — lie in `[0,1]`, and the confidence
level is one of the five ordinal values. -/
theorem C1_quality_metrics_in_unit_range (env : AnalysisEnv) (L : LanguageData)
    (thought : String) (strategy : ThinkingStrategy)
    (h : strip thought ≠ "") :
    MetricsInUnitRange (analyze_thought_quality env L thought strategy) := by
  unfold MetricsInUnitRange analyze_thought_quality
  rw [if_neg h]
  refine ⟨?_, ?_, ?_, ?_, ?_, ?_, ?_, ?_, ?_, ?_, ?_, ?_, ?_, ?_, ?_, ?_, ?_, ?_⟩
  · dsimp only
    rcases env.clarity with flesch | _ | _
    · exact pymin_one_unit (pymax_nonneg_left le_rfl _)
    · exact pymin_one_unit (pymax_nonneg_left (by norm_num) _)
    · exact pymin_one_unit (pymax_nonneg_left (by norm_num) _)
  · exact pymin_one_unit (by positivity)
  · exact pymin_one_unit (by positivity)
  · dsimp only
    exact unitI_ite _ (pymin_one_unit (by positivity)) unitI_zero
  · dsimp only
    rcases env.clarity with flesch | _ | _
    · exact pymin_one_unit (by positivity)
    · exact pymin_one_unit (by positivity)
    · exact pymin_one_unit (by positivity)
  · exact unitI_ite _ (analyzeSpecificStrategy_unit _ _ _ _ _ _ _ _ _ _ _ _) unitI_zero
  · exact unitI_ite _ (analyzeSpecificStrategy_unit _ _ _ _ _ _ _ _ _ _ _ _) unitI_zero
  · exact unitI_ite _ (analyzeSpecificStrategy_unit _ _ _ _ _ _ _ _ _ _ _ _) unitI_zero
  · exact unitI_ite _ (analyzeSpecificStrategy_unit _ _ _ _ _ _ _ _ _ _ _ _) unitI_zero
  · exact unitI_ite _ (analyzeSpecificStrategy_unit _ _ _ _ _ _ _ _ _ _ _ _) unitI_zero
  · exact unitI_ite _ (analyzeSpecificStrategy_unit _ _ _ _ _ _ _ _ _ _ _ _) unitI_zero
  · exact unitI_ite _ (analyzeSpecificStrategy_unit _ _ _ _ _ _ _ _ _ _ _ _) unitI_zero
  · exact unitI_ite _ (analyzeSpecificStrategy_unit _ _ _ _ _ _ _ _ _ _ _ _) unitI_zero
  · exact unitI_ite _ (analyzeSpecificStrategy_unit _ _ _ _ _ _ _ _ _ _ _ _) unitI_zero
  · exact unitI_ite _ (analyzeSpecificStrategy_unit _ _ _ _ _ _ _ _ _ _ _ _) unitI_zero
  · exact unitI_ite _ (analyzeSpecificStrategy_unit _ _ _ _ _ _ _ _ _ _ _ _) unitI_zero
  · exact unitI_ite _ (analyzeSpecificStrategy_unit _ _ _ _ _ _ _ _ _ _ _ _) unitI_zero
  · dsimp only
    split
    · exact Or.inr (Or.inr (Or.inr (Or.inl rfl)))
    · split
      · exact Or.inr (Or.inl rfl)
      · exact Or.inr (Or.inr (Or.inl rfl))

/-- Witness for C1 at a concrete non-empty text. -/
theorem C1_quality_metrics_in_unit_range_witness :
    MetricsInUnitRange (analyze_thought_quality
      ⟨.noLibs, fun _ _ => false⟩ {} "a test thought" .critical) :=
  C1_quality_metrics_in_unit_range _ _ _ _ (by decide)

/-! ## Claim C6: bias detection fires iff two markers and one cue -/

/-- Claim C6: For every language catalog and every text: a bias name is
reported by `detect_cognitive_biases` iff the catalog has an entry for it
whose literal markers occur at least twice (counting distinct markers
present) in the lowercased text and at least one of whose contextual cues
occurs; consequently, when every catalog entry has zero marker occurrences,
the detected-bias list is empty. -/
theorem C6_bias_detection_characterisation (L : LanguageData) (thought : String) :
    (∀ b, b ∈ detect_cognitive_biases L thought ↔
      ∃ d, (b, d) ∈ L.bias_catalog ∧
        2 ≤ d.markers.countP (fun m => containsSub (lower thought).data m.data) ∧
        d.context.any (fun c => strContains (lower thought) c) = true) ∧
    ((∀ p ∈ L.bias_catalog,
        p.2.markers.countP (fun m => containsSub (lower thought).data m.data) = 0) →
      detect_cognitive_biases L thought = []) := by
  constructor
  · intro b
    unfold detect_cognitive_biases
    rw [List.mem_map]
    constructor
    · rintro ⟨p, hp, rfl⟩
      rw [List.mem_filter] at hp
      refine ⟨p.2, hp.1, ?_, ?_⟩
      · have := (Bool.and_eq_true _ _).mp hp.2
        exact of_decide_eq_true this.1
      · exact ((Bool.and_eq_true _ _).mp hp.2).2
    · rintro ⟨d, hd, hcount, hctx⟩
      refine ⟨(b, d), ?_, rfl⟩
      rw [List.mem_filter]
      exact ⟨hd, (Bool.and_eq_true _ _).mpr ⟨decide_eq_true hcount, hctx⟩⟩
  · intro hzero
    unfold detect_cognitive_biases
    rw [List.map_eq_nil_iff, List.filter_eq_nil_iff]
    intro p hp
    rw [hzero p hp]
    simp

/-- Witness for C6: a catalog with one bias entry and a text containing
none of its markers yields no detection. -/
theorem C6_bias_detection_characterisation_witness :
    detect_cognitive_biases
      { bias_catalog := [("confirmation bias",
        { markers := ["always", "never"], context := ["assertion"] })] }
      "the data suggests a nuanced picture" = [] :=
  (C6_bias_detection_characterisation _ _).2 (by decide)

/-! ## Claim C9: metacognitive analysis ignores the depth argument -/

/-- Claim C9: The metacognitive analysis result does not depend on the depth
argument: for every engine state, every focus area and any two depth
values in `1..5`, `perform_metacognitive_analysis` returns equal
results (the source never reads `depth` in the function body). -/
theorem C9_metacognitive_analysis_depth_independent (st : ProcessorState)
    (focus_area : String) (d1 d2 : Nat)
    (h1 : 1 ≤ d1) (h2 : d1 ≤ 5) (h3 : 1 ≤ d2) (h4 : d2 ≤ 5) :
    perform_metacognitive_analysis st focus_area d1 =
      perform_metacognitive_analysis st focus_area d2 := rfl

/-- Witness for C9 at the initial state and depths 1 and 5. -/
theorem C9_metacognitive_analysis_depth_independent_witness :
    perform_metacognitive_analysis {} "focus" 1 =
      perform_metacognitive_analysis {} "focus" 5 :=
  C9_metacognitive_analysis_depth_independent {} "focus" 1 5
    (by decide) (by decide) (by decide) (by decide)

/-! ## Claim C10: skipping analysis leaves the default metrics -/

/-- Claim C10: For every creation request with `request_analysis = false`,
the created (and stored) thought's metrics record equals the default
`ThoughtMetrics` — every float score `0` and confidence level `MEDIUM` —
even when the request carries an explicit confidence level (the override
only happens inside the `request_analysis` branch). -/
theorem C10_no_analysis_keeps_default_metrics (env : AnalysisEnv)
    (L : LanguageData) (st : ProcessorState) (input : EnhancedThinkingInput)
    (h : input.request_analysis = false) :
    (create_thought env L st input).2.metrics = ({} : ThoughtMetrics) ∧
    ((create_thought env L st input).2.id, (create_thought env L st input).2) ∈
      (create_thought env L st input).1.thoughts := by
  constructor
  · simp [create_thought, h]
  · simp [create_thought]

/-- Witness for C10: a request with an explicit confidence level but
`request_analysis = false` still stores the default metrics. -/
theorem C10_no_analysis_keeps_default_metrics_witness :
    (create_thought ⟨.noLibs, fun _ _ => false⟩ {} {}
      { thought := "a thought", confidence := some .veryHigh,
        request_analysis := false }).2.metrics = ({} : ThoughtMetrics) :=
  (C10_no_analysis_keeps_default_metrics _ _ _ _ rfl).1

/-! ## Claim C8: empty content is rejected without touching state -/

/-- Claim C8: A `create_thought` request whose content is empty after
trimming returns the structured validation error and leaves the engine
state completely unchanged: no thought is stored, no session list grows,
no parent's children list is modified. -/
theorem C8_empty_content_rejected_state_unchanged (env : AnalysisEnv)
    (L : LanguageData) (st : ProcessorState) (input : EnhancedThinkingInput)
    (h : strip input.thought = "") :
    enhanced_thinking env L st input =
      (st, .errorResult "ERROR_EMPTY_THOUGHT_CONTENT") := by
  unfold enhanced_thinking
  rw [if_pos]
  rw [h]
  simp

/-- Witness for C8: whitespace-only content. -/
theorem C8_empty_content_rejected_state_unchanged_witness :
    enhanced_thinking ⟨.noLibs, fun _ _ => false⟩ {} {} { thought := "   " } =
      ({}, .errorResult "ERROR_EMPTY_THOUGHT_CONTENT") :=
  C8_empty_content_rejected_state_unchanged _ _ _ _ (by decide)

/-! ## Claim C2: exporting a never-populated session -/

/-- Claim C2, counterexample: At the initial engine state the current session
`"default"` has never had a thought appended — it is absent from the
session map — and exporting it in the structured (`json`) form returns the
session-not-found **error** result, not a `thought_count = 0` success, so
the claim fails as stated. -/
theorem C2_export_empty_session_counterexample :
    export_thinking_session .noLibs {} {} none "json" =
      .sessionNotFound := rfl

/-- Claim C2, amended: Exporting a session name that is *present in the
session map* with an empty thought-id list (a session touched but never
appended to, as the current session becomes after a metacognitive
reflection call) in the structured form returns `thought_count = 0` and an
empty thoughts list, and not an error; a session name absent from the map
— including the initial current session before any thought is created —
yields the session-not-found error result instead. -/
theorem C2_export_present_empty_session (cenv : ConsistencyEnv)
    (L : LanguageData) (st : ProcessorState) (sessionArg : Option String)
    (h : st.thought_sessions.lookup (sessionArg.getD st.current_session_id) =
      some []) :
    export_thinking_session cenv L st sessionArg "json" =
      .json (sessionArg.getD st.current_session_id) 0 [] := by
  simp only [export_thinking_session]
  rw [h]
  simp

/-- Witness for the amended C2: a state whose session map holds an empty
`"default"` entry. -/
theorem C2_export_present_empty_session_witness :
    export_thinking_session .noLibs {}
      { thought_sessions := [("default", [])] } none "json" =
      .json "default" 0 [] :=
  C2_export_present_empty_session _ _ _ _ (by decide)

/-! ## Claim C3: path reconstruction under a parent-link cycle -/


theorem pathLoop_cyclic (fuel : Nat) (path : List EnhancedThought) :
    pathLoop cyclicState.thoughts fuel cyclicThought path = none := by
  induction fuel generalizing path with
  | zero => rfl
  | succ n ih =>
      show pathLoop cyclicState.thoughts (n + 1) cyclicThought path = none
      rw [pathLoop]
      exact ih _

/-- Claim C3: The claim demands that `get_thinking_path` terminate on every
store state — cycles included — visiting at most as many thoughts as the
store contains.  The code's `while` loop carries no such bound: on the
one-thought store whose thought is its own parent, the loop never reaches
an exit condition, so the fuel-indexed model of the loop fails to finish
for *every* fuel value, where the claim requires success within one step.
(The unknown-id and root cases of the claim do hold, but the claim as a
whole fails on this state.) -/
theorem C3_get_thinking_path_diverges_on_cycle (fuel : Nat) :
    get_thinking_path cyclicState 1 fuel = none := by
  have hlook : cyclicState.thoughts.lookup 1 = some cyclicThought := rfl
  unfold get_thinking_path
  rw [hlook]
  exact pathLoop_cyclic fuel []

/-! ## Claim C4: the coherence score formula -/

/-- Claim C4: For every known session whose resolved thought list is
non-empty, the coherence report's score equals
`1 − conflict count / thought count` (where the thought count is the
report's own count of resolved thoughts); in particular the score is
exactly `1` whenever the consistency check reports zero conflicts —
which includes every session with exactly one thought, since the check
returns no conflicts for fewer than two texts. -/
theorem C4_coherence_score_formula (cenv : ConsistencyEnv) (L : LanguageData)
    (st : ProcessorState) (sessionArg : Option String) (tids : List Nat)
    (h1 : st.thought_sessions.lookup (sessionArg.getD st.current_session_id) =
      some tids)
    (h2 : tids.filterMap (fun tid => st.thoughts.lookup tid) ≠ []) :
    ∃ r, analyze_session_coherence cenv L st sessionArg = .report r ∧
      r.coherence_score =
        1 - (r.consistency_analysis.conflicts.length : ℚ) / (r.thought_count : ℚ) ∧
      (r.consistency_analysis.conflicts = [] → r.coherence_score = 1) ∧
      (r.thought_count = 1 → r.coherence_score = 1) := by
  simp only [analyze_session_coherence, h1]
  have hne : ((tids.filterMap (fun tid => st.thoughts.lookup tid)).map
      (fun th => th.content)).isEmpty = false :=
    List.isEmpty_eq_false.mpr (by simpa using h2)
  rw [if_neg (by simp [hne])]
  have hlen : 0 <
      ((tids.filterMap (fun tid => st.thoughts.lookup tid)).map
        (fun th => th.content)).length := by
    rw [List.length_pos]
    simp only [ne_eq, List.map_eq_nil_iff]
    exact h2
  have hmax : max ((tids.filterMap (fun tid => st.thoughts.lookup tid)).map
        (fun th => th.content)).length 1 =
      ((tids.filterMap (fun tid => st.thoughts.lookup tid)).map
        (fun th => th.content)).length := Nat.max_eq_left hlen
  refine ⟨_, rfl, ?_, ?_, ?_⟩
  · dsimp only
    rw [hmax]
  · intro hconf
    dsimp only at hconf ⊢
    rw [hconf, hmax]
    simp
  · intro hcount
    dsimp only at hcount ⊢
    have hcheck : check_logical_consistency cenv L
        ((tids.filterMap (fun tid => st.thoughts.lookup tid)).map
          (fun th => th.content)) = ⟨true, []⟩ := by
      unfold check_logical_consistency
      rw [if_pos (by rw [hcount]; norm_num)]
    rw [hcheck, hmax]
    simp

/-- Witness for C4: a one-thought session scores exactly 1. -/
theorem C4_coherence_score_formula_witness :
    ∃ r, analyze_session_coherence .noLibs {}
      { thoughts :=
          [(1,
            { id := 1
              content := "hello"
              thought_type := .analysis
              strategy := .linear })]
        thought_sessions := [("default", [1])] } none = .report r ∧
      r.coherence_score =
        1 - (r.consistency_analysis.conflicts.length : ℚ) / (r.thought_count : ℚ) ∧
      (r.consistency_analysis.conflicts = [] → r.coherence_score = 1) ∧
      (r.thought_count = 1 → r.coherence_score = 1) :=
  C4_coherence_score_formula .noLibs {} _ none [1] (by decide) (by decide)

/-! ## Claim C7: parent linking on creation -/

theorem lookup_mem {k : Nat} {v : EnhancedThought}
    {l : List (Nat × EnhancedThought)} (h : l.lookup k = some v) : (k, v) ∈ l := by
  induction l with
  | nil => simp [List.lookup] at h
  | cons p t ih =>
      obtain ⟨pk, pv⟩ := p
      rw [List.lookup] at h
      by_cases hk : k = pk
      · subst hk
        simp at h
        subst h
        exact List.mem_cons_self _ _
      · simp [beq_false_of_ne hk] at h
        exact List.mem_cons_of_mem _ (ih h)

theorem lookup_append_left {k : Nat} {v : EnhancedThought}
    {l1 : List (Nat × EnhancedThought)} (l2 : List (Nat × EnhancedThought))
    (h : l1.lookup k = some v) : (l1 ++ l2).lookup k = some v := by
  induction l1 with
  | nil => simp [List.lookup] at h
  | cons p t ih =>
      rw [List.cons_append, List.lookup]
      rw [List.lookup] at h
      by_cases hk : k = p.1
      · simpa [hk] using h
      · rw [beq_false_of_ne hk] at h ⊢
        exact ih h

theorem lookup_updateThoughtEntry (k : Nat)
    (f : EnhancedThought → EnhancedThought) (l : List (Nat × EnhancedThought)) :
    (updateThoughtEntry k f l).lookup k = (l.lookup k).map f := by
  induction l with
  | nil => rfl
  | cons p t ih =>
      obtain ⟨pk, pv⟩ := p
      unfold updateThoughtEntry at ih ⊢
      by_cases hk : pk = k
      · subst hk
        rw [List.map_cons, if_pos rfl]
        simp [List.lookup]
      · rw [List.map_cons, if_neg hk, List.lookup, List.lookup,
          beq_false_of_ne (fun he => hk he.symm)]
        exact ih


/-- Claim C7: Creating a thought whose parent id is present in the store
makes the fresh id appear exactly once in that parent's children list;
creating with an unknown parent id stores the parent link on the new
thought but appends the new entry without touching any existing store
entry. -/
theorem C7_parent_link_exactly_once (env : AnalysisEnv) (L : LanguageData)
    (st : ProcessorState) (input : EnhancedThinkingInput)
    (hInv : IdsBounded st) :
    (∀ p parent, input.parent_thought_id = some p →
      st.thoughts.lookup p = some parent →
      ∃ parent2, (create_thought env L st input).1.thoughts.lookup p = some parent2 ∧
        parent2.children_ids.count (st.global_thought_counter + 1) = 1) ∧
    (∀ p, input.parent_thought_id = some p →
      st.thoughts.lookup p = none →
      (create_thought env L st input).1.thoughts =
        st.thoughts ++
          [(st.global_thought_counter + 1, (create_thought env L st input).2)] ∧
      (create_thought env L st input).2.parent_id = some p) := by
  constructor
  · intro p parent hp hlook
    have hfresh : st.global_thought_counter + 1 ∉ parent.children_ids := by
      intro hmem
      have := (hInv (p, parent) (lookup_mem hlook)).2 _ hmem
      omega
    simp only [create_thought, update_thought_relationships, hp]
    rw [hlook]
    simp only [Option.isSome_some, if_pos]
    refine ⟨(fun parent =>
      if st.global_thought_counter + 1 ∈ parent.children_ids then parent
      else { parent with children_ids :=
        parent.children_ids ++ [st.global_thought_counter + 1] }) parent, ?_, ?_⟩
    · exact lookup_append_left _
        ((lookup_updateThoughtEntry p _ st.thoughts).trans (by rw [hlook]; rfl))
    · dsimp only
      rw [if_neg hfresh]
      dsimp only
      rw [List.count_append, List.count_eq_zero.mpr hfresh]
      simp
  · intro p hp hlook
    constructor
    · simp only [create_thought, update_thought_relationships, hp]
      rw [hlook]
      simp
    · simp [create_thought, hp]

/-- Witness for C7 (known-parent part): creating under an existing parent
records the fresh id once in the parent's children list. -/
theorem C7_parent_link_exactly_once_witness :
    ∃ parent2,
      (create_thought ⟨.noLibs, fun _ _ => false⟩ {} c7State
        { thought := "child", parent_thought_id := some 1 }).1.thoughts.lookup 1 =
        some parent2 ∧
      parent2.children_ids.count 2 = 1 :=
  (C7_parent_link_exactly_once ⟨.noLibs, fun _ _ => false⟩ {} c7State
    { thought := "child", parent_thought_id := some 1 }
    (by unfold IdsBounded c7State; decide)).1 1 c7Root rfl rfl

/-! ## Claim C5: the rolling strategy history and branch 4 -/

theorem lastN_append_rolling {α : Type} (l : List α) (p : α) :
    (if 20 < (lastN 20 l ++ [p]).length then (lastN 20 l ++ [p]).drop 1
      else lastN 20 l ++ [p]) = lastN 20 (l ++ [p]) := by
  unfold lastN
  have hlp : (l ++ [p]).length = l.length + 1 := by simp
  rcases le_or_lt l.length 19 with hle | hlt
  · have h1 : l.length - 20 = 0 := by omega
    have h2 : (l ++ [p]).length - 20 = 0 := by omega
    rw [h1, h2, List.drop_zero, List.drop_zero, if_neg (by simp; omega)]
  · have hlen : (l.drop (l.length - 20)).length = 20 := by
      rw [List.length_drop]
      omega
    rw [if_pos (by simp [hlen])]
    have hd : l.length - 20 + 1 = (l ++ [p]).length - 20 := by omega
    rw [List.drop_append_of_le_length (by omega : 1 ≤ (l.drop (l.length - 20)).length),
      List.drop_drop, hd,
      List.drop_append_of_le_length (by omega : (l ++ [p]).length - 20 ≤ l.length)]

theorem suggest_updates_history (L : LanguageData) (st : ProcessorState)
    (context : String) (eff : ℚ) (strat : ThinkingStrategy) :
    (suggest_next_thinking_strategy L st context eff strat).1.strategy_history =
      (if 20 < (st.strategy_history ++ [(strat, eff)]).length then
        (st.strategy_history ++ [(strat, eff)]).drop 1
      else st.strategy_history ++ [(strat, eff)]) := rfl

theorem fold_suggest_history (L : LanguageData)
    (calls : List (String × ℚ × ThinkingStrategy)) :
    ∀ (st : ProcessorState) (l : List (ThinkingStrategy × ℚ)),
      st.strategy_history = lastN 20 l →
      (calls.foldl
        (fun s c => (suggest_next_thinking_strategy L s c.1 c.2.1 c.2.2).1)
        st).strategy_history =
      lastN 20 (l ++ calls.map (fun c => (c.2.2, c.2.1))) := by
  induction calls with
  | nil => intro st l h; simpa using h
  | cons c cs ih =>
      intro st l h
      rw [List.foldl_cons]
      have hstep := ih ((suggest_next_thinking_strategy L st c.1 c.2.1 c.2.2).1)
        (l ++ [(c.2.2, c.2.1)])
        (by rw [suggest_updates_history, h]; exact lastN_append_rolling l _)
      rw [hstep, List.map_cons, List.append_assoc]
      rfl

theorem filter_assembleRecommendations (ca : ContextAnalysis)
    (history : List (ThinkingStrategy × ℚ)) (eff : ℚ) :
    (assembleRecommendations ca history eff).filter
        (fun p => p.2 == "STRATEGY_EFFECTIVE_PREVIOUSLY_REASON") =
      (branch4Proposals history).map
        (fun s => (s, "STRATEGY_EFFECTIVE_PREVIOUSLY_REASON")) := by
  unfold assembleRecommendations
  split
  · rename_i hempty
    have hb4 : (branch4Proposals history).map
        (fun s => (s, "STRATEGY_EFFECTIVE_PREVIOUSLY_REASON")) = ([] :
          List (ThinkingStrategy × String)) := by
      rw [List.isEmpty_iff] at hempty
      unfold recommendationBranches14 at hempty
      rcases List.append_eq_nil.mp hempty with ⟨-, h4⟩
      exact h4
    rw [hb4]
    unfold fallbackRecommendations
    split_ifs <;> simp
  · unfold recommendationBranches14
    rw [List.filter_append, List.filter_append, List.filter_append]
    split_ifs <;>
      simp [List.filter_map, Function.comp_def]

/-- Claim C5: Starting from the initial state, after any sequence of
strategy-adaptation calls the strategy history is exactly the last 20 of
all recorded (strategy, effectiveness) pairs — each call appends its own
pair and the oldest entry is evicted beyond capacity 20 — and every
strategy proposed with the branch-4 "previously effective" reason comes
from an entry of the last 5 history entries with recorded effectiveness
above `0.7`, with at most two such proposals per call. -/
theorem C5_strategy_history_rolling_and_branch4 (L : LanguageData) :
    (∀ calls : List (String × ℚ × ThinkingStrategy),
      (calls.foldl
        (fun s c => (suggest_next_thinking_strategy L s c.1 c.2.1 c.2.2).1)
        ({} : ProcessorState)).strategy_history =
      lastN 20 (calls.map (fun c => (c.2.2, c.2.1)))) ∧
    (∀ (st : ProcessorState) (context : String) (eff : ℚ)
        (strat : ThinkingStrategy),
      ((suggest_next_thinking_strategy L st context eff strat).2.suggested_strategies.filter
          (fun p => p.2 == "STRATEGY_EFFECTIVE_PREVIOUSLY_REASON")).length ≤ 2 ∧
      List.Forall (fun p => ∃ e, (p.1, e) ∈
          analyze_strategy_history
            (suggest_next_thinking_strategy L st context eff strat).1.strategy_history ∧
          (7/10 : ℚ) < e)
        ((suggest_next_thinking_strategy L st context eff strat).2.suggested_strategies.filter
          (fun p => p.2 == "STRATEGY_EFFECTIVE_PREVIOUSLY_REASON"))) := by
  constructor
  · intro calls
    have := fold_suggest_history L calls ({} : ProcessorState) [] rfl
    simpa using this
  · intro st context eff strat
    have hsugg : (suggest_next_thinking_strategy L st context eff strat).2.suggested_strategies =
        assembleRecommendations
          { complexity := analyze_complexity context
            ambiguity := analyze_ambiguity L context
            emotional_tone := analyze_emotional_tone L context
            domain := detect_domain L context }
          (suggest_next_thinking_strategy L st context eff strat).1.strategy_history
          eff := rfl
    rw [hsugg, filter_assembleRecommendations]
    constructor
    · rw [List.length_map]
      unfold branch4Proposals
      exact le_trans (List.length_take_le _ _) le_rfl
    · rw [List.forall_iff_forall_mem]
      intro p hp
      rcases List.mem_map.mp hp with ⟨s, hs, rfl⟩
      have hsub : s ∈ ((analyze_strategy_history
          (suggest_next_thinking_strategy L st context eff strat).1.strategy_history).filter
            (fun q => decide ((7/10 : ℚ) < q.2))).map Prod.fst :=
        List.take_subset _ _ hs
      rcases List.mem_map.mp hsub with ⟨q, hq, rfl⟩
      rcases List.mem_filter.mp hq with ⟨hqmem, hqeff⟩
      exact ⟨q.2, hqmem, of_decide_eq_true hqeff⟩

end MCPThinking
